import Mathlib

/-!
Verification development for the page-turner firmware repository.

The repository holds two near-duplicate Arduino sketches:
* `src/page-turner.ino` (the main sketch), embedded below with the `PT`
  suffix/prefix convention (`ConfigPT`, `StatePT`, ...), and
* `src/unnamed/part_000` (the second sketch), embedded with the `000`
  suffix convention (`Config000`, ...).

Pure functions of the sketches are translated into Lean functions; the
global mutable state of the polling loop becomes an explicit state record
threaded through the handlers.  Machine integers are modelled as `Int`
(the sketches' `int`) and `Nat` (the sketches' `unsigned long`); where the
C code converts a signed value to `unsigned long` for a comparison the
conversion is made explicit as a reduction modulo 2^32 (`toU32`).
Hardware and library side effects (display, speaker, EEPROM, HTTP) are
modelled by returning the observable events: the list of painted strings,
the list of URLs handed to the HTTP client, and the power-off flag.
-/

/-! ## page-turner.ino: configuration record (`struct Config`, lines 26-41) -/

/-- `struct Config` of `page-turner.ino`.  The three `char[...]` fields are
modelled as the C-string values they hold (`ssid[32]`, `password[32]`,
`koReaderIP[16]`); the byte-level behaviour of the `strncpy` copies into
those arrays is modelled separately by `strncpyBytes`. -/
structure ConfigPT where
  ssid : String
  password : String
  koReaderIP : String
  koReaderPort : Int
  aBtnClickAction : Int
  aBtnHoldAction : Int
  bBtnClickAction : Int
  bBtnHoldAction : Int
  keepScreenOn : Bool
  beepOnPress : Bool
  autoShutdownTime : Int
  shutdownCountdownScreen : Bool
  shutdownCountdownBeep : Bool
  countdownTime : Int
deriving DecidableEq

/-- The default member initialisers of `struct Config` in `page-turner.ino`. -/
def defaultConfigPT : ConfigPT :=
  { ssid := "defaultSSID"
    password := "defaultPass"
    koReaderIP := "192.168.1.100"
    koReaderPort := 8080
    aBtnClickAction := 1
    aBtnHoldAction := 2
    bBtnClickAction := 0
    bBtnHoldAction := 3
    keepScreenOn := true
    beepOnPress := true
    autoShutdownTime := 600
    shutdownCountdownScreen := true
    shutdownCountdownBeep := false
    countdownTime := 10 }

/-! ## page-turner.ino: the Action Sender (`sendRequest`, lines 138-151) -/

/-- The URL built by the `switch (action)` of `sendRequest`
(page-turner.ino lines 141-147); the `default:` case returns without
building a URL, modelled as `none`. -/
def sendRequestUrl (cfg : ConfigPT) (action : Int) : Option String :=
  if action = 0 then
    some ("http://" ++ cfg.koReaderIP ++ ":" ++ toString cfg.koReaderPort ++ "/koreader/event/GotoViewRel/-1")
  else if action = 1 then
    some ("http://" ++ cfg.koReaderIP ++ ":" ++ toString cfg.koReaderPort ++ "/koreader/event/GotoViewRel/1")
  else if action = 2 then
    some ("http://" ++ cfg.koReaderIP ++ ":" ++ toString cfg.koReaderPort ++ "/koreader/event/FullRefresh")
  else if action = 3 then
    some ("http://" ++ cfg.koReaderIP ++ ":" ++ toString cfg.koReaderPort ++ "/koreader/event/ToggleFrontlight")
  else none

/-- `sendRequest` of `page-turner.ino`: returns the list of URLs handed to
the HTTP client (`http.begin(url); http.GET()`).  The function returns
early when `WiFi.status() != WL_CONNECTED`, and the `default:` case of the
switch returns before the HTTP client is touched. -/
def sendRequest (wifiConnected : Bool) (cfg : ConfigPT) (action : Int) : List String :=
  if wifiConnected = false then []
  else
    match sendRequestUrl cfg action with
    | some url => [url]
    | none => []

/-! ## Arduino `String::toInt` and the numeric fields of `handleSave` -/

/-- Whitespace as accepted by `atol` (isspace in the C locale). -/
def isAsciiSpace (c : Char) : Bool :=
  c == ' ' || c == '\t' || c == '\n' || c == '\x0b' || c == '\x0c' || c == '\r'

/-- Accumulate leading decimal digits, stopping at the first non-digit. -/
def digitsToInt : List Char → Int → Int
  | [], acc => acc
  | c :: cs, acc => if c.isDigit then digitsToInt cs (10 * acc + ((c.toNat : Int) - 48)) else acc

/-- Modelled semantics of Arduino `String::toInt` (which calls `atol`):
skip leading whitespace, read an optional sign, then consume decimal
digits; if no digits are present the result is 0. -/
def stringToInt (s : String) : Int :=
  match s.data.dropWhile isAsciiSpace with
  | [] => 0
  | c :: cs =>
    if c = '-' then - digitsToInt cs 0
    else if c = '+' then digitsToInt cs 0
    else digitsToInt (c :: cs) 0

/-- `config.koReaderPort = server.arg("koReaderPort").toInt();` in
`handleSave` (page-turner.ino line 245). -/
def handleSavePort (arg : String) : Int := stringToInt arg

/-- `config.aBtnClickAction = server.arg("aClick").toInt();` in
`handleSave` (page-turner.ino line 246); the three other action slots are
copied identically and perform no range validation. -/
def handleSaveAction (arg : String) : Int := stringToInt arg

/-! ## `strncpy` into the fixed-size `char` arrays of `handleSave` -/

/-- Byte-level behaviour of `strncpy(dst, src, n)` where `n` is the full
size of `dst` (as in `handleSave`, page-turner.ino lines 242-244): at most
`n` characters of `src` are copied; when `src` is shorter than `n` the
remainder is filled with NUL bytes, but when `src` has `n` or more
characters no NUL terminator is written at all. -/
def strncpyBytes (src : List Char) (n : Nat) : List Char :=
  src.take n ++ List.replicate (n - src.length) (Char.ofNat 0)

/-- The 32 bytes of `config.ssid` after
`strncpy(config.ssid, server.arg("ssid").c_str(), sizeof(config.ssid));`
(page-turner.ino line 242, `sizeof(config.ssid) = 32`). -/
def handleSaveSsidBytes (arg : String) : List Char := strncpyBytes arg.data 32

/-- The 32 bytes of `config.password` after
`strncpy(config.password, server.arg("password").c_str(), sizeof(config.password));`
(page-turner.ino line 243, `sizeof(config.password) = 32`). -/
def handleSavePasswordBytes (arg : String) : List Char := strncpyBytes arg.data 32

/-- A byte buffer holds a valid C string iff a NUL byte occurs in it. -/
def isNullTerminated (buf : List Char) : Bool := buf.contains (Char.ofNat 0)

/-! ## page-turner.ino: configuration persistence (`loadConfig`, lines 64-73) -/

/-- `loadConfig` of `page-turner.ino`, as a function of the persisted
EEPROM image: `EEPROM.get(0, config)` makes the stored record the
in-memory record unconditionally; `saveConfig()` is called (persisting
that same in-memory record) only when the loaded `ssid` compares equal to
`"defaultSSID"`.  The result is the in-memory record together with the
record written back by `saveConfig` (`none` when nothing is persisted).
The trailing `delayToTurnOffScreen = !config.keepScreenOn;` is modelled
where the initial loop state is built. -/
def loadConfigPT (stored : ConfigPT) : ConfigPT × Option ConfigPT :=
  if stored.ssid = "defaultSSID" then (stored, some stored) else (stored, none)

/-- An all-0xFF persisted image, the content of never-initialised flash:
every `char` is `0xFF`, every `int` reads back as `-1` and every `bool`
as `true`. -/
def ffChars (n : Nat) : String := String.mk (List.replicate n (Char.ofNat 255))

/-- The `struct Config` read back from a never-initialised EEPROM image. -/
def uninitImagePT : ConfigPT :=
  { ssid := ffChars 31
    password := ffChars 31
    koReaderIP := ffChars 15
    koReaderPort := -1
    aBtnClickAction := -1
    aBtnHoldAction := -1
    bBtnClickAction := -1
    bBtnHoldAction := -1
    keepScreenOn := true
    beepOnPress := true
    autoShutdownTime := -1
    shutdownCountdownScreen := true
    shutdownCountdownBeep := true
    countdownTime := -1 }

/-! ## part_000: configuration record and persistence (lines 34-40, 121-138) -/

/-- `struct Config` of `src/unnamed/part_000` (`uint16_t magic`,
`char ssid[32]`, `char password[64]`, `char targetIP[16]`,
`uint16_t targetPort`). -/
structure Config000 where
  magic : Nat
  ssid : String
  password : String
  targetIP : String
  targetPort : Nat
deriving DecidableEq

/-- `#define CONFIG_MAGIC 0xAA55` in part_000. -/
def CONFIG_MAGIC : Nat := 0xAA55

/-- `saveConfig` of part_000 sets `deviceConfig.magic = CONFIG_MAGIC` and
persists the record; the result is the record as persisted. -/
def saveConfig000 (c : Config000) : Config000 := { c with magic := CONFIG_MAGIC }

/-- The default record built by `loadConfig` of part_000 on a magic
mismatch (`memset` to zero, then the `DEFAULT_*` strings and port), after
`saveConfig` has stamped the magic value. -/
def defaultConfig000 : Config000 :=
  { magic := CONFIG_MAGIC
    ssid := "M5StickC-Plus2"
    password := "12345678"
    targetIP := "192.168.2.99"
    targetPort := 8080 }

/-- `loadConfig` of part_000 (lines 127-138): reads the persisted record;
when its `magic` field differs from `CONFIG_MAGIC` the record is reset to
the built-in defaults and immediately re-persisted via `saveConfig`.
Result: the in-memory record and the record written back (`none` when
nothing is persisted). -/
def loadConfig000 (stored : Config000) : Config000 × Option Config000 :=
  if stored.magic ≠ CONFIG_MAGIC then
    let d := saveConfig000
      { magic := 0
        ssid := "M5StickC-Plus2"
        password := "12345678"
        targetIP := "192.168.2.99"
        targetPort := 8080 }
    (d, some d)
  else (stored, none)

/-! ## part_000: Action Sender and the button section of `loop` -/

/-- `sendTurnPageRequest` of part_000 (lines 276-288) builds this URL and
unconditionally hands it to the HTTP client (`http.begin(url); http.GET()`);
no network-status check occurs anywhere in the function. -/
def sendTurnPageRequestUrl (cfg : Config000) (turnPageSize : Int) : String :=
  "http://" ++ cfg.targetIP ++ ":" ++ toString cfg.targetPort ++
    "/koreader/event/GotoViewRel/" ++ toString turnPageSize

/-- Loop state of part_000 relevant to the button section. -/
structure State000 where
  lastActivityTime : Nat
  lastRemainingSeconds : Int
  screenEnabled : Bool
deriving DecidableEq

/-- The button-handling section of `loop` in part_000 (lines 326-342):
on `BtnA.wasPressed() || BtnB.wasPressed()` the activity timer and the
countdown cache are reset and `sendTurnPageRequest` is invoked for each
pressed button.  The section reads no network state whatsoever; the
`wifiConnected` parameter records the WiFi status only so that claims
about disconnected iterations can be stated, and is (faithfully to the
source) never consulted. -/
def loop000Buttons (wifiConnected : Bool) (btnAPressed btnBPressed : Bool)
    (cfg : Config000) (now : Nat) (st : State000) : State000 × List String :=
  if btnAPressed || btnBPressed then
    ({ st with lastActivityTime := now, lastRemainingSeconds := -1 },
      (if btnAPressed then [sendTurnPageRequestUrl cfg 1] else []) ++
      (if btnBPressed then [sendTurnPageRequestUrl cfg (-1)] else []))
  else (st, [])

/-- The part_000 loop state at boot. -/
def st000Init : State000 :=
  { lastActivityTime := 0, lastRemainingSeconds := -1, screenEnabled := false }

/-! ## page-turner.ino: loop state and handlers -/

/-- The global mutable state of `page-turner.ino` read and written by the
handlers of `loop` (lines 44-59): the configuration record plus
`lastActiveTime`, `lastRemainingSeconds`, `turnOnScreen`,
`delayToTurnOffScreen`, `onCountdown`, `screenStateBeforeCountdown` and
the `lastDisplayedText` cache of `displayText`.  Display-only globals
(`textColor`, `lastBatteryLevel`, `lastScreenUpdateTime`) and the
debounce timestamp of the power key are omitted; the power-key debounce
result is an input of the loop iteration. -/
structure StatePT where
  config : ConfigPT
  lastActiveTime : Nat
  lastRemainingSeconds : Int
  turnOnScreen : Bool
  delayToTurnOffScreen : Bool
  onCountdown : Bool
  screenStateBeforeCountdown : Bool
  lastDisplayedText : String
deriving DecidableEq

/-- The inputs of one `loop` iteration of `page-turner.ino`: the current
`millis()` value, the WiFi status (`WiFi.status() == WL_CONNECTED`), the
debounced button events of the iteration (`BtnA`/`BtnB`
`wasClicked`/`wasHold`, and `isPWRBtnClicked()`), and the status string
`drawInfoScreen` would paint (it is built from external WiFi and battery
state, which are out of scope). -/
structure EnvPT where
  now : Nat
  wifiConnected : Bool
  btnAClicked : Bool
  btnAHeld : Bool
  btnBClicked : Bool
  btnBHeld : Bool
  pwrClicked : Bool
  infoText : String
deriving DecidableEq

/-- `displayText` of `page-turner.ino` (lines 84-93): repaints, and
records the painted text in `lastDisplayedText`, only when the text
differs from the previously displayed one.  The second component is the
list of paints performed. -/
def displayText (text : String) (st : StatePT) : StatePT × List String :=
  if text ≠ st.lastDisplayedText then ({ st with lastDisplayedText := text }, [text])
  else (st, [])

/-- `handleNormalBtnEvent` of `page-turner.ino` (lines 264-281): returns
immediately when WiFi is not connected; otherwise, on a click or hold,
resets the activity timer and the countdown cache and dispatches the
configured action to `sendRequest` (click takes precedence over hold, as
in the source's `if`/`else if`).  The speaker beep is not modelled.  The
second component is the list of URLs handed to the HTTP client. -/
def handleNormalBtnEvent (wifiConnected clicked held : Bool)
    (clickAction holdAction : Int) (now : Nat) (st : StatePT) : StatePT × List String :=
  if wifiConnected = false then (st, [])
  else if clicked || held then
    let st1 := { st with lastActiveTime := now, lastRemainingSeconds := -1 }
    if clicked then (st1, sendRequest wifiConnected st1.config clickAction)
    else (st1, sendRequest wifiConnected st1.config holdAction)
  else (st, [])

/-- `handlePWRBtnEvent` of `page-turner.ino` (lines 305-319): on a
debounced power-key click (the `isPWRBtnClicked()` result is the
`pwrClicked` input), resets the activity timer and the countdown cache,
toggles `turnOnScreen` and cancels the delayed screen-off.  The beep is
not modelled. -/
def handlePWRBtnEvent (pwrClicked : Bool) (now : Nat) (st : StatePT) : StatePT :=
  if pwrClicked = true then
    { st with lastActiveTime := now, lastRemainingSeconds := -1,
              turnOnScreen := !st.turnOnScreen, delayToTurnOffScreen := false }
  else st

/-- `handleShutdownCountdown` of `page-turner.ino` (lines 322-339).  When
the countdown screen prompt is enabled: on first entry the current screen
state is saved in `screenStateBeforeCountdown`, the screen is forced on
and `onCountdown` is set; the remaining seconds are
`autoShutdownTime - inactiveTime / 1000` (integer division of the elapsed
milliseconds), and `displayText` is invoked, and `lastRemainingSeconds`
updated, only when that value differs from `lastRemainingSeconds`.  When
the prompt is disabled the function does nothing.  (The source also takes
the unused `currentTime` parameter; the countdown beep is not modelled.)
The second component is the list of paints performed. -/
def handleShutdownCountdown (inactiveTime : Nat) (st : StatePT) : StatePT × List String :=
  if st.config.shutdownCountdownScreen = true then
    let st1 := if st.onCountdown = false then { st with screenStateBeforeCountdown := st.turnOnScreen } else st
    let st2 := { st1 with turnOnScreen := true, onCountdown := true }
    let remainingSeconds : Int := st.config.autoShutdownTime - ((inactiveTime / 1000 : Nat) : Int)
    if remainingSeconds ≠ st.lastRemainingSeconds then
      let p := displayText ("关机倒计时: " ++ toString remainingSeconds ++ " 秒") st2
      ({ p.1 with lastRemainingSeconds := remainingSeconds }, p.2)
    else (st2, [])
  else (st, [])

/-- Reduction of an `int` value to the `unsigned long` (32-bit) it
converts to in a C comparison against an `unsigned long`. -/
def toU32 (v : Int) : Nat := (v % 4294967296).toNat

/-- The right-hand side of `inactiveTime >= config.autoShutdownTime * 1000`
(page-turner.ino line 346) after the implicit `int` → `unsigned long`
conversion. -/
def shutdownThreshold (cfg : ConfigPT) : Nat := toU32 (cfg.autoShutdownTime * 1000)

/-- The right-hand side of
`inactiveTime >= (config.autoShutdownTime - config.countdownTime) * 1000`
(page-turner.ino line 348) after the implicit `int` → `unsigned long`
conversion: the signed product is computed in `int` and then converted,
so a negative window becomes a value near 2^32. -/
def countdownThreshold (cfg : ConfigPT) : Nat :=
  toU32 ((cfg.autoShutdownTime - cfg.countdownTime) * 1000)

/-- The three-phase classification of `handleAutoShutdown`'s
`if` / `else if` / `else` (page-turner.ino lines 346-356). -/
inductive Phase where
  | active
  | countdown
  | powerOff
deriving DecidableEq

/-- Which branch of `handleAutoShutdown` a given elapsed idle time takes. -/
def shutdownPhase (cfg : ConfigPT) (inactiveTime : Nat) : Phase :=
  if inactiveTime ≥ shutdownThreshold cfg then Phase.powerOff
  else if inactiveTime ≥ countdownThreshold cfg then Phase.countdown
  else Phase.active

/-- `handleAutoShutdown` of `page-turner.ino` (lines 342-357):
`inactiveTime = millis() - lastActiveTime`; at or beyond the shutdown
threshold the device powers off (third component `true`); inside the
countdown window `handleShutdownCountdown` runs; otherwise, when a
countdown was in progress, the pre-countdown screen state is restored and
`onCountdown` cleared. -/
def handleAutoShutdown (now : Nat) (st : StatePT) : StatePT × List String × Bool :=
  let inactiveTime := now - st.lastActiveTime
  if inactiveTime ≥ shutdownThreshold st.config then (st, [], true)
  else if inactiveTime ≥ countdownThreshold st.config then
    ((handleShutdownCountdown inactiveTime st).1, (handleShutdownCountdown inactiveTime st).2, false)
  else if st.onCountdown = true then
    ({ st with turnOnScreen := st.screenStateBeforeCountdown, onCountdown := false }, [], false)
  else (st, [], false)

/-- `handleScreenSwitch` of `page-turner.ino` (lines 360-376): when a
delayed screen-off is pending, the keep-screen-on toggle is off and more
than five seconds have passed since the last activity, the screen flag is
cleared; then, when the screen is on and no countdown is in progress,
`drawInfoScreen` paints the status string (its content is the `infoText`
input; its battery hysteresis is display-only and not modelled) through
`displayText`. -/
def handleScreenSwitch (now : Nat) (infoText : String) (st : StatePT) : StatePT × List String :=
  let st1 := if st.delayToTurnOffScreen = true ∧ st.config.keepScreenOn = false ∧ now - st.lastActiveTime > 5000
             then { st with turnOnScreen := false, delayToTurnOffScreen := false } else st
  if st1.turnOnScreen = true then
    if st1.onCountdown = false then displayText infoText st1 else (st1, [])
  else (st1, [])

/-- The state after the first four handlers of `loop`
(`handleScreenSwitch`, `handleNormalBtnEvent` for A and for B,
`handlePWRBtnEvent`; page-turner.ino lines 406-411), together with the
requests sent and the paints performed so far. -/
def preAutoState (env : EnvPT) (st : StatePT) : StatePT × List String × List String :=
  let s1 := handleScreenSwitch env.now env.infoText st
  let s2 := handleNormalBtnEvent env.wifiConnected env.btnAClicked env.btnAHeld
              s1.1.config.aBtnClickAction s1.1.config.aBtnHoldAction env.now s1.1
  let s3 := handleNormalBtnEvent env.wifiConnected env.btnBClicked env.btnBHeld
              s2.1.config.bBtnClickAction s2.1.config.bBtnHoldAction env.now s2.1
  let s4 := handlePWRBtnEvent env.pwrClicked env.now s3.1
  (s4, s2.2 ++ s3.2, s1.2)

/-- The observable output of one `loop` iteration. -/
structure OutPT where
  requests : List String
  painted : List String
  poweredOff : Bool
deriving DecidableEq

/-- One iteration of `loop` in `page-turner.ino` (lines 402-417):
screen switch, buttons A and B, power key, then `handleAutoShutdown`.
(`server.handleClient()` serves the provisioning endpoints modelled
separately by `handleSave...`; it does not touch this state.) -/
def loopIter (env : EnvPT) (st : StatePT) : StatePT × OutPT :=
  let pre := preAutoState env st
  let post := handleAutoShutdown env.now pre.1
  (post.1, { requests := pre.2.1, painted := pre.2.2 ++ post.2.1, poweredOff := post.2.2 })

/-! ## Concrete test states used by the witnesses and counterexamples -/

/-- A freshly booted state with the default configuration (600 s shutdown
timeout, 10 s countdown prompt). -/
def stBootPT : StatePT :=
  { config := defaultConfigPT
    lastActiveTime := 0
    lastRemainingSeconds := -1
    turnOnScreen := true
    delayToTurnOffScreen := false
    onCountdown := false
    screenStateBeforeCountdown := true
    lastDisplayedText := "" }

/-- A state deep in the countdown window: the last displayed remaining
value was 6 and the screen was off before the countdown started. -/
def stC5x : StatePT :=
  { config := defaultConfigPT
    lastActiveTime := 0
    lastRemainingSeconds := 6
    turnOnScreen := true
    delayToTurnOffScreen := false
    onCountdown := true
    screenStateBeforeCountdown := false
    lastDisplayedText := "" }

/-- 595 s of idle time, WiFi not connected, button A clicked. -/
def envC5x : EnvPT :=
  { now := 595000
    wifiConnected := false
    btnAClicked := true
    btnAHeld := false
    btnBClicked := false
    btnBHeld := false
    pwrClicked := false
    infoText := "info" }

/-- 595 s of idle time and a debounced power-key click. -/
def envW5 : EnvPT :=
  { now := 595000
    wifiConnected := false
    btnAClicked := false
    btnAHeld := false
    btnBClicked := false
    btnBHeld := false
    pwrClicked := true
    infoText := "info" }

/-- A countdown in progress whose pre-countdown screen state was off. -/
def stW5 : StatePT :=
  { config := defaultConfigPT
    lastActiveTime := 0
    lastRemainingSeconds := 5
    turnOnScreen := true
    delayToTurnOffScreen := false
    onCountdown := true
    screenStateBeforeCountdown := false
    lastDisplayedText := "关机倒计时: 5 秒" }

/-- The misconfiguration of claim C6: a 10 s shutdown timeout with a 20 s
countdown prompt window. -/
def misconfigC6 : ConfigPT :=
  { defaultConfigPT with autoShutdownTime := 10, countdownTime := 20 }

/-- A configuration whose countdown screen prompt is disabled. -/
def stC9x : StatePT :=
  { config := { defaultConfigPT with shutdownCountdownScreen := false }
    lastActiveTime := 0
    lastRemainingSeconds := -1
    turnOnScreen := false
    delayToTurnOffScreen := false
    onCountdown := false
    screenStateBeforeCountdown := true
    lastDisplayedText := "" }

/-- 595 s of idle time with no input activity. -/
def envC9x : EnvPT :=
  { now := 595000
    wifiConnected := false
    btnAClicked := false
    btnAHeld := false
    btnBClicked := false
    btnBHeld := false
    pwrClicked := false
    infoText := "" }

/-- A default-configuration state whose screen is currently off. -/
def stW9 : StatePT :=
  { config := defaultConfigPT
    lastActiveTime := 0
    lastRemainingSeconds := -1
    turnOnScreen := false
    delayToTurnOffScreen := false
    onCountdown := false
    screenStateBeforeCountdown := true
    lastDisplayedText := "" }

/-- 595 s of idle time with no input activity, WiFi connected. -/
def envW9 : EnvPT :=
  { now := 595000
    wifiConnected := true
    btnAClicked := false
    btnAHeld := false
    btnBClicked := false
    btnBHeld := false
    pwrClicked := false
    infoText := "status" }

/-! ## Helper lemmas -/

theorem mem_of_dropWhile_mem (p : Char → Bool) :
    ∀ (l : List Char) (a : Char), a ∈ l.dropWhile p → a ∈ l := by
  intro l
  induction l with
  | nil => intro a ha; simp at ha
  | cons x xs ih =>
    intro a ha
    by_cases hx : p x = true
    · rw [List.dropWhile_cons_of_pos hx] at ha
      exact List.mem_cons_of_mem _ (ih a ha)
    · rw [List.dropWhile_cons_of_neg hx] at ha
      exact ha

theorem digitsToInt_head_not_digit (c : Char) (cs : List Char) (acc : Int)
    (h : c.isDigit = false) : digitsToInt (c :: cs) acc = acc := by
  unfold digitsToInt
  rw [h]
  simp

theorem stringToInt_no_digits (s : String) (h : ∀ c ∈ s.data, c.isDigit = false) :
    stringToInt s = 0 := by
  unfold stringToInt
  have hsub : ∀ c ∈ s.data.dropWhile isAsciiSpace, c.isDigit = false :=
    fun c hc => h c (mem_of_dropWhile_mem isAsciiSpace s.data c hc)
  cases hdw : s.data.dropWhile isAsciiSpace with
  | nil => rfl
  | cons c cs =>
    rw [hdw] at hsub
    change (if c = '-' then - digitsToInt cs 0
            else if c = '+' then digitsToInt cs 0
            else digitsToInt (c :: cs) 0) = 0
    by_cases hminus : c = '-'
    · rw [if_pos hminus]
      cases cs with
      | nil => simp [digitsToInt]
      | cons c2 cs2 =>
        rw [digitsToInt_head_not_digit c2 cs2 0
          (hsub c2 (List.mem_cons_of_mem _ (List.mem_cons_self _ _)))]
        simp
    · rw [if_neg hminus]
      by_cases hplus : c = '+'
      · rw [if_pos hplus]
        cases cs with
        | nil => rfl
        | cons c2 cs2 =>
          exact digitsToInt_head_not_digit c2 cs2 0
            (hsub c2 (List.mem_cons_of_mem _ (List.mem_cons_self _ _)))
      · rw [if_neg hplus]
        exact digitsToInt_head_not_digit c cs 0 (hsub c (List.mem_cons_self _ _))

theorem handleScreenSwitch_preserves (now : Nat) (t : String) (st : StatePT) :
    (handleScreenSwitch now t st).1.config = st.config ∧
    (handleScreenSwitch now t st).1.onCountdown = st.onCountdown ∧
    (handleScreenSwitch now t st).1.screenStateBeforeCountdown = st.screenStateBeforeCountdown ∧
    (handleScreenSwitch now t st).1.lastActiveTime = st.lastActiveTime ∧
    (handleScreenSwitch now t st).1.lastRemainingSeconds = st.lastRemainingSeconds := by
  unfold handleScreenSwitch displayText
  split_ifs <;> dsimp only <;> split_ifs <;> simp_all

theorem handleNormalBtnEvent_preserves (w c h : Bool) (ca ha : Int) (now : Nat) (st : StatePT) :
    (handleNormalBtnEvent w c h ca ha now st).1.config = st.config ∧
    (handleNormalBtnEvent w c h ca ha now st).1.onCountdown = st.onCountdown ∧
    (handleNormalBtnEvent w c h ca ha now st).1.screenStateBeforeCountdown
      = st.screenStateBeforeCountdown := by
  unfold handleNormalBtnEvent
  split_ifs <;> simp_all

theorem handleNormalBtnEvent_activity (c h : Bool) (ca ha : Int) (now : Nat) (st : StatePT)
    (hev : c = true ∨ h = true) :
    (handleNormalBtnEvent true c h ca ha now st).1.lastActiveTime = now ∧
    (handleNormalBtnEvent true c h ca ha now st).1.lastRemainingSeconds = -1 := by
  unfold handleNormalBtnEvent
  rcases hev with hc | hh
  · subst hc; cases h <;> simp
  · subst hh; cases c <;> simp

theorem handleNormalBtnEvent_noEvent (w : Bool) (ca ha : Int) (now : Nat) (st : StatePT) :
    handleNormalBtnEvent w false false ca ha now st = (st, []) := by
  unfold handleNormalBtnEvent
  cases w <;> simp

theorem handlePWRBtnEvent_preserves (p : Bool) (now : Nat) (st : StatePT) :
    (handlePWRBtnEvent p now st).config = st.config ∧
    (handlePWRBtnEvent p now st).onCountdown = st.onCountdown ∧
    (handlePWRBtnEvent p now st).screenStateBeforeCountdown = st.screenStateBeforeCountdown := by
  unfold handlePWRBtnEvent
  split_ifs <;> simp

theorem handlePWRBtnEvent_clicked (now : Nat) (st : StatePT) :
    (handlePWRBtnEvent true now st).lastActiveTime = now ∧
    (handlePWRBtnEvent true now st).lastRemainingSeconds = -1 := by
  unfold handlePWRBtnEvent
  simp

theorem preAutoState_preserves (env : EnvPT) (st : StatePT) :
    (preAutoState env st).1.config = st.config ∧
    (preAutoState env st).1.onCountdown = st.onCountdown ∧
    (preAutoState env st).1.screenStateBeforeCountdown = st.screenStateBeforeCountdown := by
  unfold preAutoState
  obtain ⟨h1, h2, h3, _, _⟩ := handleScreenSwitch_preserves env.now env.infoText st
  obtain ⟨g1, g2, g3⟩ := handleNormalBtnEvent_preserves env.wifiConnected env.btnAClicked
    env.btnAHeld (handleScreenSwitch env.now env.infoText st).1.config.aBtnClickAction
    (handleScreenSwitch env.now env.infoText st).1.config.aBtnHoldAction env.now
    (handleScreenSwitch env.now env.infoText st).1
  obtain ⟨k1, k2, k3⟩ := handleNormalBtnEvent_preserves env.wifiConnected env.btnBClicked
    env.btnBHeld _ _ env.now
    (handleNormalBtnEvent env.wifiConnected env.btnAClicked env.btnAHeld
      (handleScreenSwitch env.now env.infoText st).1.config.aBtnClickAction
      (handleScreenSwitch env.now env.infoText st).1.config.aBtnHoldAction env.now
      (handleScreenSwitch env.now env.infoText st).1).1
  obtain ⟨p1, p2, p3⟩ := handlePWRBtnEvent_preserves env.pwrClicked env.now
    (handleNormalBtnEvent env.wifiConnected env.btnBClicked env.btnBHeld
      (handleNormalBtnEvent env.wifiConnected env.btnAClicked env.btnAHeld
        (handleScreenSwitch env.now env.infoText st).1.config.aBtnClickAction
        (handleScreenSwitch env.now env.infoText st).1.config.aBtnHoldAction env.now
        (handleScreenSwitch env.now env.infoText st).1).1.config.bBtnClickAction
      (handleNormalBtnEvent env.wifiConnected env.btnAClicked env.btnAHeld
        (handleScreenSwitch env.now env.infoText st).1.config.aBtnClickAction
        (handleScreenSwitch env.now env.infoText st).1.config.aBtnHoldAction env.now
        (handleScreenSwitch env.now env.infoText st).1).1.config.bBtnHoldAction env.now
      (handleNormalBtnEvent env.wifiConnected env.btnAClicked env.btnAHeld
        (handleScreenSwitch env.now env.infoText st).1.config.aBtnClickAction
        (handleScreenSwitch env.now env.infoText st).1.config.aBtnHoldAction env.now
        (handleScreenSwitch env.now env.infoText st).1).1).1
  refine ⟨?_, ?_, ?_⟩
  · rw [p1, k1, g1, h1]
  · rw [p2, k2, g2, h2]
  · rw [p3, k3, g3, h3]

theorem preAutoState_activity (env : EnvPT) (st : StatePT)
    (hact : env.pwrClicked = true ∨ (env.wifiConnected = true ∧
      (env.btnAClicked = true ∨ env.btnAHeld = true ∨ env.btnBClicked = true ∨ env.btnBHeld = true))) :
    (preAutoState env st).1.lastActiveTime = env.now ∧
    (preAutoState env st).1.lastRemainingSeconds = -1 := by
  unfold preAutoState
  dsimp only
  set s1 := handleScreenSwitch env.now env.infoText st with hs1
  set s2 := handleNormalBtnEvent env.wifiConnected env.btnAClicked env.btnAHeld
    s1.1.config.aBtnClickAction s1.1.config.aBtnHoldAction env.now s1.1 with hs2
  set s3 := handleNormalBtnEvent env.wifiConnected env.btnBClicked env.btnBHeld
    s2.1.config.bBtnClickAction s2.1.config.bBtnHoldAction env.now s2.1 with hs3
  cases hpc : env.pwrClicked with
  | true => exact handlePWRBtnEvent_clicked env.now s3.1
  | false =>
    show s3.1.lastActiveTime = env.now ∧ s3.1.lastRemainingSeconds = -1
    rcases hact with hp | ⟨hw, hbtn⟩
    · rw [hpc] at hp
      exact absurd hp (by decide)
    · by_cases hB : env.btnBClicked = true ∨ env.btnBHeld = true
      · rw [hs3, hw]
        exact handleNormalBtnEvent_activity env.btnBClicked env.btnBHeld
          s2.1.config.bBtnClickAction s2.1.config.bBtnHoldAction env.now s2.1 hB
      · simp only [not_or, Bool.not_eq_true] at hB
        rw [hs3, hB.1, hB.2, handleNormalBtnEvent_noEvent]
        have hA : env.btnAClicked = true ∨ env.btnAHeld = true := by
          rcases hbtn with h | h | h | h
          · exact Or.inl h
          · exact Or.inr h
          · rw [hB.1] at h; exact absurd h (by decide)
          · rw [hB.2] at h; exact absurd h (by decide)
        rw [hs2, hw]
        exact handleNormalBtnEvent_activity env.btnAClicked env.btnAHeld
          s1.1.config.aBtnClickAction s1.1.config.aBtnHoldAction env.now s1.1 hA

theorem handleShutdownCountdown_turnOn (m : Nat) (st : StatePT)
    (hp : st.config.shutdownCountdownScreen = true) :
    (handleShutdownCountdown m st).1.turnOnScreen = true := by
  unfold handleShutdownCountdown displayText
  rw [if_pos hp]
  dsimp only
  split_ifs <;> simp

theorem shutdownPhase_countdown_elim (cfg : ConfigPT) (t : Nat)
    (h : shutdownPhase cfg t = Phase.countdown) :
    ¬ t ≥ shutdownThreshold cfg ∧ t ≥ countdownThreshold cfg := by
  unfold shutdownPhase at h
  by_cases h1 : t ≥ shutdownThreshold cfg
  · rw [if_pos h1] at h
    exact Phase.noConfusion h
  · by_cases h2 : t ≥ countdownThreshold cfg
    · exact ⟨h1, h2⟩
    · rw [if_neg h1, if_neg h2] at h
      exact Phase.noConfusion h

/-! ## Claim theorems -/

/-- Claim C1: for every configured host string and port, the Action Sender
builds exactly the documented URL for each of the four logical actions
(0 = PreviousPage → `GotoViewRel` with delta -1, 1 = NextPage →
`GotoViewRel` with delta 1, 2 = FullRefresh → `FullRefresh`,
3 = ToggleLight → `ToggleFrontlight`); in part_000,
`sendTurnPageRequest` with page deltas 1 and -1 produces the matching
`GotoViewRel` URLs; and host 192.168.1.100 with port 8080 and NextPage
give `http://192.168.1.100:8080/koreader/event/GotoViewRel/1`. -/
theorem sendRequest_builds_documented_urls :
    (∀ cfg : ConfigPT,
      sendRequestUrl cfg 0 = some ("http://" ++ cfg.koReaderIP ++ ":" ++ toString cfg.koReaderPort ++ "/koreader/event/GotoViewRel/-1") ∧
      sendRequestUrl cfg 1 = some ("http://" ++ cfg.koReaderIP ++ ":" ++ toString cfg.koReaderPort ++ "/koreader/event/GotoViewRel/1") ∧
      sendRequestUrl cfg 2 = some ("http://" ++ cfg.koReaderIP ++ ":" ++ toString cfg.koReaderPort ++ "/koreader/event/FullRefresh") ∧
      sendRequestUrl cfg 3 = some ("http://" ++ cfg.koReaderIP ++ ":" ++ toString cfg.koReaderPort ++ "/koreader/event/ToggleFrontlight")) ∧
    (sendTurnPageRequestUrl defaultConfig000 1 = "http://192.168.2.99:8080/koreader/event/GotoViewRel/1" ∧
      sendTurnPageRequestUrl defaultConfig000 (-1) = "http://192.168.2.99:8080/koreader/event/GotoViewRel/-1") ∧
    sendRequestUrl { defaultConfigPT with koReaderIP := "192.168.1.100", koReaderPort := 8080 } 1
      = some "http://192.168.1.100:8080/koreader/event/GotoViewRel/1" := by
  refine ⟨fun cfg => ⟨rfl, rfl, rfl, rfl⟩, ⟨by decide, by decide⟩, by decide⟩

/-- Claim C3 counterexample: in part_000's `loop`, with WiFi not connected
(first argument `false`), a press of button A still hands a page-turn URL
to the HTTP client — the Action Sender's transport is invoked. -/
theorem part000_sends_request_when_disconnected :
    (loop000Buttons false true false defaultConfig000 1000 st000Init).2
        = ["http://192.168.2.99:8080/koreader/event/GotoViewRel/1"] ∧
    (loop000Buttons false true false defaultConfig000 1000 st000Init).2 ≠ [] := by
  decide

/-- Claim C3 (amended): in `page-turner.ino`, while the WiFi status is not
connected-as-client, a click or hold of a normal button is a complete
no-op — `handleNormalBtnEvent` returns with the state unchanged and no
URL is handed to the HTTP client.  (In part_000 the loop sends the
page-turn request regardless of the WiFi status, see the
counterexample.) -/
theorem normalBtn_noop_when_disconnected (clicked held : Bool)
    (clickAction holdAction : Int) (now : Nat) (st : StatePT) :
    handleNormalBtnEvent false clicked held clickAction holdAction now st = (st, []) := rfl

/-- Claim C4 (code bug, page-turner.ino): on a never-initialised EEPROM
image (all bytes 0xFF) the loaded `ssid` differs from the sentinel
`"defaultSSID"`, so `loadConfig` keeps the garbage record in memory and
persists nothing — it neither resets the record to the built-in defaults
nor re-persists it, contradicting its own "first run: save the default
configuration" comment.  (part_000's `loadConfig000` does implement the
claimed reset, see `loadConfig000_resets_on_bad_magic`.) -/
theorem loadConfig_keeps_uninitialized_image :
    loadConfigPT uninitImagePT = (uninitImagePT, none) ∧
    uninitImagePT.ssid ≠ defaultConfigPT.ssid ∧
    uninitImagePT ≠ defaultConfigPT := by
  decide

/-- In part_000, a persisted record with a mismatching magic value is
replaced by the defaults and immediately re-persisted. -/
theorem loadConfig000_resets_on_bad_magic (stored : Config000)
    (h : stored.magic ≠ CONFIG_MAGIC) :
    loadConfig000 stored = (defaultConfig000, some defaultConfig000) := by
  unfold loadConfig000
  rw [if_pos h]
  rfl

/-- Claim C5 counterexample: during a countdown, with WiFi disconnected, a
click of normal button A is ignored by `handleNormalBtnEvent`, so the
iteration ends still in the countdown (`onCountdown` remains `true`) and
the screen state is not restored — the claim's "any normal-button ...
activity event returns the timer state machine to Active" fails. -/
theorem countdown_not_exited_on_disconnected_btn :
    stC5x.onCountdown = true ∧
    envC5x.wifiConnected = false ∧
    envC5x.btnAClicked = true ∧
    (loopIter envC5x stC5x).1.onCountdown = true ∧
    (loopIter envC5x stC5x).1.turnOnScreen ≠ stC5x.screenStateBeforeCountdown := by
  decide

/-- Claim C5 (amended): once the countdown has been entered, any processed
activity event — a power-key click, or a normal-button click or hold while
WiFi is connected — together with a positive configured pre-countdown
window (both comparison thresholds non-zero) makes the iteration end back
in the Active phase: `onCountdown` is cleared, `turnOnScreen` is restored
to exactly `screenStateBeforeCountdown`, `lastRemainingSeconds` is reset
to -1 and the device does not power off.  (A normal-button press while
WiFi is disconnected is ignored and does not exit the countdown, see the
counterexample.) -/
theorem countdown_exit_restores_screen (env : EnvPT) (st : StatePT)
    (hcd : st.onCountdown = true)
    (hact : env.pwrClicked = true ∨ (env.wifiConnected = true ∧
      (env.btnAClicked = true ∨ env.btnAHeld = true ∨ env.btnBClicked = true ∨ env.btnBHeld = true)))
    (hth1 : 0 < countdownThreshold st.config)
    (hth2 : 0 < shutdownThreshold st.config) :
    (loopIter env st).1.onCountdown = false ∧
    (loopIter env st).1.turnOnScreen = st.screenStateBeforeCountdown ∧
    (loopIter env st).1.lastRemainingSeconds = -1 ∧
    (loopIter env st).2.poweredOff = false := by
  obtain ⟨hla, hlr⟩ := preAutoState_activity env st hact
  obtain ⟨hcfg, hoc, hsb⟩ := preAutoState_preserves env st
  show (handleAutoShutdown env.now (preAutoState env st).1).1.onCountdown = false ∧
    (handleAutoShutdown env.now (preAutoState env st).1).1.turnOnScreen
      = st.screenStateBeforeCountdown ∧
    (handleAutoShutdown env.now (preAutoState env st).1).1.lastRemainingSeconds = -1 ∧
    (handleAutoShutdown env.now (preAutoState env st).1).2.2 = false
  unfold handleAutoShutdown
  dsimp only
  rw [hla, hcfg, hoc, hsb, hlr, Nat.sub_self, hcd]
  rw [if_neg (by omega), if_neg (by omega), if_pos rfl]
  exact ⟨rfl, rfl, rfl, rfl⟩

/-- Claim C5 witness: a concrete countdown state and a power-key click for
which `countdown_exit_restores_screen` applies. -/
theorem countdown_exit_restores_screen_witness :
    stW5.onCountdown = true ∧
    (envW5.pwrClicked = true ∨ (envW5.wifiConnected = true ∧
      (envW5.btnAClicked = true ∨ envW5.btnAHeld = true ∨ envW5.btnBClicked = true ∨ envW5.btnBHeld = true))) ∧
    0 < countdownThreshold stW5.config ∧
    0 < shutdownThreshold stW5.config ∧
    ((loopIter envW5 stW5).1.onCountdown = false ∧
      (loopIter envW5 stW5).1.turnOnScreen = stW5.screenStateBeforeCountdown ∧
      (loopIter envW5 stW5).1.lastRemainingSeconds = -1 ∧
      (loopIter envW5 stW5).2.poweredOff = false) :=
  ⟨rfl, Or.inl rfl, by decide, by decide,
    countdown_exit_restores_screen envW5 stW5 rfl (Or.inl rfl) (by decide) (by decide)⟩

/-- Claim C6 (code bug): with `autoShutdownTime = 10` and
`countdownTime = 20`, the signed window `(10 - 20) * 1000 = -10000`
converts to the unsigned value 4294957296 (= 2^32 - 10000) in the
comparison, so at 5 s of idle time the countdown branch is not taken and
the idle-timer evaluation stays Active: the code wraps instead of
clamping the window to non-negative. -/
theorem countdown_window_wraps_unsigned :
    countdownThreshold misconfigC6 = 4294957296 ∧
    shutdownPhase misconfigC6 5000 = Phase.active := by
  decide

/-- Claim C7 (code bug): `strncpy` with count `sizeof(field)` in
`handleSave` copies a 32-character `ssid` submission as 32 non-NUL bytes
— the stored field has no NUL terminator and is not a valid bounded C
string; likewise for a 40-character `password` (field capacity 32 bytes
in page-turner.ino).  A short submission does stay null-terminated. -/
theorem strncpy_save_drops_null_terminator :
    handleSaveSsidBytes (String.mk (List.replicate 32 'a')) = List.replicate 32 'a' ∧
    isNullTerminated (handleSaveSsidBytes (String.mk (List.replicate 32 'a'))) = false ∧
    isNullTerminated (handleSavePasswordBytes (String.mk (List.replicate 40 'b'))) = false ∧
    isNullTerminated (handleSaveSsidBytes "myWiFi") = true := by
  decide

/-- Claim C8: a configuration-save whose numeric field contains no digit
at all stores exactly 0 — Arduino `String::toInt` (atol semantics) parses
no digits and falls back to 0; the handler is a total function, so no
crash is possible in the model. -/
theorem handleSave_nonnumeric_port_zero (s : String)
    (h : ∀ c ∈ s.data, c.isDigit = false) :
    handleSavePort s = 0 :=
  stringToInt_no_digits s h

/-- Claim C8 witness: the spec's example input "abc". -/
theorem handleSave_nonnumeric_port_zero_witness :
    (∀ c ∈ ("abc" : String).data, c.isDigit = false) ∧ handleSavePort "abc" = 0 :=
  ⟨by decide, handleSave_nonnumeric_port_zero "abc" (by decide)⟩

/-- Claim C9 counterexample: with the countdown screen prompt disabled
(`shutdownCountdownScreen = false`) an iteration whose elapsed idle time
lies in the countdown window leaves a switched-off screen off —
`turnOnScreen` is not forced to `true`. -/
theorem countdown_screen_not_forced_when_prompt_disabled :
    stC9x.config.shutdownCountdownScreen = false ∧
    shutdownPhase stC9x.config (envC9x.now - stC9x.lastActiveTime) = Phase.countdown ∧
    (loopIter envC9x stC9x).1.turnOnScreen = false := by
  decide

/-- Claim C9 (amended): provided the countdown screen prompt is enabled
(`shutdownCountdownScreen = true`), every loop iteration whose elapsed
idle time (as evaluated by `handleAutoShutdown` after the button
handlers) lies in the countdown window ends with `turnOnScreen = true`:
the countdown forces the screen visible regardless of the normal on/off
policy.  When the prompt is disabled the countdown leaves the screen flag
unchanged, see the counterexample. -/
theorem countdown_forces_screen_on_when_prompt_enabled (env : EnvPT) (st : StatePT)
    (hp : st.config.shutdownCountdownScreen = true)
    (hc : shutdownPhase st.config (env.now - (preAutoState env st).1.lastActiveTime)
      = Phase.countdown) :
    (loopIter env st).1.turnOnScreen = true := by
  obtain ⟨hcfg, -, -⟩ := preAutoState_preserves env st
  obtain ⟨hns, hcs⟩ := shutdownPhase_countdown_elim st.config _ hc
  show (handleAutoShutdown env.now (preAutoState env st).1).1.turnOnScreen = true
  unfold handleAutoShutdown
  dsimp only
  rw [hcfg]
  rw [if_neg hns, if_pos hcs]
  exact handleShutdownCountdown_turnOn _ _ (by rw [hcfg]; exact hp)

/-- Claim C9 witness: a default-configuration state with the screen off,
595 s into the idle period. -/
theorem countdown_forces_screen_on_when_prompt_enabled_witness :
    stW9.config.shutdownCountdownScreen = true ∧
    shutdownPhase stW9.config (envW9.now - (preAutoState envW9 stW9).1.lastActiveTime)
      = Phase.countdown ∧
    (loopIter envW9 stW9).1.turnOnScreen = true :=
  ⟨rfl, by decide,
    countdown_forces_screen_on_when_prompt_enabled envW9 stW9 rfl (by decide)⟩

/-- Claim C10: for every action code outside {0, 1, 2, 3}, `sendRequest`
builds no URL and hands nothing to the HTTP client (a silent no-op that
touches no state), while the save handler accepts the arbitrary integer
"7" into a button-action slot without validation, so such codes are
reachable from the configuration interface. -/
theorem sendRequest_out_of_range_noop (cfg : ConfigPT) (wifi : Bool) (action : Int)
    (h0 : action ≠ 0) (h1 : action ≠ 1) (h2 : action ≠ 2) (h3 : action ≠ 3) :
    sendRequestUrl cfg action = none ∧ sendRequest wifi cfg action = [] ∧
    handleSaveAction "7" = 7 := by
  have hu : sendRequestUrl cfg action = none := by
    unfold sendRequestUrl
    rw [if_neg h0, if_neg h1, if_neg h2, if_neg h3]
  refine ⟨hu, ?_, by decide⟩
  unfold sendRequest
  rw [hu]
  split_ifs <;> rfl

/-- Claim C10 witness: the out-of-range action code 7. -/
theorem sendRequest_out_of_range_noop_witness :
    ((7 : Int) ≠ 0 ∧ (7 : Int) ≠ 1 ∧ (7 : Int) ≠ 2 ∧ (7 : Int) ≠ 3) ∧
    (sendRequestUrl defaultConfigPT 7 = none ∧ sendRequest true defaultConfigPT 7 = [] ∧
      handleSaveAction "7" = 7) :=
  ⟨⟨by decide, by decide, by decide, by decide⟩,
    sendRequest_out_of_range_noop defaultConfigPT true 7
      (by decide) (by decide) (by decide) (by decide)⟩

/-- Claim C2: for every elapsed idle time of `m` milliseconds with
`m / 1000 = d` (integer division) and `d` inside the countdown window,
every string the countdown handler paints is exactly the countdown text
for `autoShutdownTime - d` remaining seconds; a repaint happens only when
that value differs from the previously displayed `lastRemainingSeconds`;
and on a repaint the new `lastRemainingSeconds` records the value. -/
theorem countdown_display_value_and_redraw (st : StatePT) (m d : Nat)
    (hmd : m / 1000 = d)
    (hlo : st.config.autoShutdownTime - st.config.countdownTime ≤ (d : Int))
    (hhi : (d : Int) < st.config.autoShutdownTime) :
    (∀ p ∈ (handleShutdownCountdown m st).2,
        p = "关机倒计时: " ++ toString (st.config.autoShutdownTime - (d : Int)) ++ " 秒") ∧
    ((handleShutdownCountdown m st).2 ≠ [] →
        st.config.autoShutdownTime - (d : Int) ≠ st.lastRemainingSeconds) ∧
    ((handleShutdownCountdown m st).2 ≠ [] →
        (handleShutdownCountdown m st).1.lastRemainingSeconds
          = st.config.autoShutdownTime - (d : Int)) := by
  unfold handleShutdownCountdown displayText
  dsimp only
  rw [hmd]
  split_ifs with hp h1 hg h2 hg
  all_goals refine ⟨?_, ?_, ?_⟩ <;> simp_all

/-- Claim C2 witness: 595003 ms of idle time (595 whole seconds) in the
default configuration's countdown window, starting from the boot state. -/
theorem countdown_display_value_and_redraw_witness :
    (595003 / 1000 : Nat) = 595 ∧
    stBootPT.config.autoShutdownTime - stBootPT.config.countdownTime ≤ ((595 : Nat) : Int) ∧
    ((595 : Nat) : Int) < stBootPT.config.autoShutdownTime ∧
    ((∀ p ∈ (handleShutdownCountdown 595003 stBootPT).2,
        p = "关机倒计时: " ++ toString (stBootPT.config.autoShutdownTime - ((595 : Nat) : Int)) ++ " 秒") ∧
      ((handleShutdownCountdown 595003 stBootPT).2 ≠ [] →
        stBootPT.config.autoShutdownTime - ((595 : Nat) : Int) ≠ stBootPT.lastRemainingSeconds) ∧
      ((handleShutdownCountdown 595003 stBootPT).2 ≠ [] →
        (handleShutdownCountdown 595003 stBootPT).1.lastRemainingSeconds
          = stBootPT.config.autoShutdownTime - ((595 : Nat) : Int))) :=
  ⟨by decide, by decide, by decide,
    countdown_display_value_and_redraw stBootPT 595003 595 (by decide) (by decide) (by decide)⟩
